import Mathlib

/-!
Verification of the jni-on-linux user-space ELF loader.

This file contains a shallow embedding of the loader's core logic
(symbol resolution, relocation application, initialization, library
path search, memory-mapping prelude and the dl-API stub construction)
translated from the Rust sources, together with theorems settling the
frozen claims about the specification.

Modelling conventions:
* `usize`/`u64` values are `Nat` with explicit `% 2 ^ 64` where machine
  wrap-around matters (release-build wrapping semantics); `i64` addends
  are `Int`.
* Fallible Rust code returns `Except`; a Rust `panic!`/`expect`/`assert!`
  is a distinguished error/`panicked` outcome, separate from values the
  code returns with `Err`.
* External collaborators (the ELF parsing crate's section readers and
  hash-table `find`, the filesystem, the OS `mmap` calls) are modelled
  as oracle data carried in the state structures, since the spec lists
  the ELF reader and the OS as out-of-scope collaborators.
* The `HashMap` fields (`dependencies`, `symbol_overrides`) are
  association lists; for `symbol_overrides` only keyed lookup is used
  (order-independent, like a `HashMap`), while for `dependencies` the
  list order stands for the hash map's unspecified iteration order.
-/

namespace JniLoader

/-- 2^64, the modulus of `usize`/`u64` arithmetic on the 64-bit target. -/
def USIZE : Nat := 2 ^ 64

/-- 2^32, the modulus of `u32` arithmetic. -/
def U32SZ : Nat := 2 ^ 32

/-- Sentinel written for symbols overridden as deliberately undefined
(`const UNDEFINED_SYMBOL_VALUE: usize = 0xBABECAFE` in jni.rs). -/
def UNDEFINED_SYMBOL_VALUE : Nat := 0xBABECAFE

/-- `STN_UNDEF` (jni.rs matches a symbol value against this constant). -/
def STN_UNDEF : Nat := 0

/-- ELF `e_type` for shared objects. -/
def ET_DYN : Nat := 3

/-- ELF program-header type for loadable segments. -/
def PT_LOAD : Nat := 1

def R_X86_64_NONE : Nat := 0
def R_X86_64_64 : Nat := 1
def R_X86_64_PC32 : Nat := 2
def R_X86_64_COPY : Nat := 5
def R_X86_64_GLOB_DAT : Nat := 6
def R_X86_64_JUMP_SLOT : Nat := 7
def R_X86_64_RELATIVE : Nat := 8

/-- Association-list lookup, modelling keyed `HashMap` access. -/
def lookupAssoc {α β : Type} [DecidableEq α] : List (α × β) → α → Option β
  | [], _ => none
  | (k, v) :: rest, key => if k = key then some v else lookupAssoc rest key

/-- A `.dynsym` entry as exposed by the ELF reader (`elf::symbol::Symbol`). -/
structure ElfSym where
  st_name : Nat
  st_value : Nat
  st_shndx : Nat
  st_size : Nat
  st_symtype : Nat
  st_bind : Nat
  st_vis : Nat
deriving DecidableEq

/-- A REL-form relocation record (`elf::relocation::Rel`). -/
structure Rel where
  r_offset : Nat
  r_type : Nat
  r_sym : Nat
deriving DecidableEq

/-- A RELA-form relocation record (`elf::relocation::Rela`). -/
structure Rela where
  r_offset : Nat
  r_type : Nat
  r_sym : Nat
  r_addend : Int
deriving DecidableEq

/-- The loader's normalised relocation tuple (`struct Relocation` in jni.rs). -/
structure Relocation where
  offset : Nat
  rel_type : Nat
  symbol : Nat
  addend : Int
deriving DecidableEq

/-- `impl From<Rel> for Relocation`: REL-form entries get addend 0. -/
def Relocation.fromRel (r : Rel) : Relocation :=
  { offset := r.r_offset, rel_type := r.r_type, symbol := r.r_sym, addend := 0 }

/-- `impl From<Rela> for Relocation`. -/
def Relocation.fromRela (r : Rela) : Relocation :=
  { offset := r.r_offset, rel_type := r.r_type, symbol := r.r_sym, addend := r.r_addend }

/-- The flattened symbol view used during relocation
(`struct LinkingSymbol` in jni.rs). -/
structure LinkingSymbol where
  name : Option String
  shndx : Nat
  value : Nat
  address : Option Nat
  size : Nat
  sym_type : Nat
  binding : Nat
  visibility : Nat
deriving DecidableEq

/-- The loader state for one shared object (`struct JNI` in jni.rs).
The parsed-ELF fields (`dynsym`, hash tables, relocation sections,
`.got.plt` contents) are oracles standing for the external ELF reader:
`none` for an absent/failed section, a table otherwise.  For the two
hash-table fields the outer `Option` is section presence and the inner
`Option` is parse success; the table itself is the `find` oracle keyed
by symbol name.  `mem` is a journal of the writes the relocation engine
performed into the mapped image: entries `(address, width, value)`,
most recent first. -/
structure Loader where
  base : Nat
  base_virtual_address : Nat
  dynsym : Option (List ElfSym × List (Nat × String))
  gnu_hash : Option (Option (List (String × ElfSym)))
  sysv_hash : Option (Option (List (String × ElfSym)))
  symbol_overrides : List (String × Option Nat)
  dependencies : List (String × Option Nat)
  looking_for_symbol : Bool
  have_been_initialized : Bool
  rel_dyn : Option (List Rel)
  rela_dyn : Option (List Rela)
  rel_plt : Option (List Rel)
  rela_plt : Option (List Rela)
  got_plt : Option (List Nat)
  plt_data_addr : Nat
  trampoline_addr : Nat
  mem : List (Nat × Nat × Nat)
deriving DecidableEq

/-- `JNI::get_offset`: `self.mapping.base + offset - self.base_virtual_address`
with `usize` (wrapping) arithmetic. -/
def get_offset (base bva offset : Nat) : Nat :=
  ((base + offset) % USIZE + USIZE - bva % USIZE) % USIZE

/-- `fn add_addend(addr: usize, addend: i64) -> usize` from jni.rs, with
release-build wrapping `usize` arithmetic. -/
def add_addend (addr : Nat) (addend : Int) : Nat :=
  if addend < 0 then (addr % USIZE + USIZE - addend.natAbs % USIZE) % USIZE
  else (addr % USIZE + addend.toNat % USIZE) % USIZE

/-- Wrapping `usize` subtraction (`a - b` in release Rust). -/
def usize_sub (a b : Nat) : Nat :=
  (a % USIZE + USIZE - b % USIZE) % USIZE

/-- `LinkingSymbol::from`: address is absent iff the ELF value is
`STN_UNDEF`, else `mapping_base + value - virtual_base_address`. -/
def LinkingSymbol.ofSym (sym : ElfSym) (name : Option String)
    (mapping_base virtual_base_address : Nat) : LinkingSymbol :=
  { name := name
    shndx := sym.st_shndx
    value := sym.st_value
    address := if sym.st_value = STN_UNDEF then none
               else some (get_offset mapping_base virtual_base_address sym.st_value)
    size := sym.st_size
    sym_type := sym.st_symtype
    binding := sym.st_bind
    visibility := sym.st_vis }

/-- `LinkingSymbol::from_override`: the address is the override value. -/
def LinkingSymbol.ofOverride (sym : ElfSym) (name : Option String)
    (address : Nat) : LinkingSymbol :=
  { name := name
    shndx := sym.st_shndx
    value := sym.st_value
    address := some address
    size := sym.st_size
    sym_type := sym.st_symtype
    binding := sym.st_bind
    visibility := sym.st_vis }

/-- `JNI::find_local_symbol_by_index`: look a symbol up by its `.dynsym`
index.  Overrides are consulted (when requested) only for named symbols;
an override present with no value yields the sentinel. -/
def find_local_symbol_by_index (ld : Loader) (index : Nat)
    (include_overrides : Bool) : Option LinkingSymbol :=
  match ld.dynsym with
  | none => none
  | some (symbol_table, string_table) =>
    match symbol_table.get? index with
    | none => none
    | some symbol =>
      if symbol.st_name ≠ 0 then
        match lookupAssoc string_table symbol.st_name with
        | none => none
        | some sym_name =>
          if include_overrides then
            match lookupAssoc ld.symbol_overrides sym_name with
            | some overridden_value =>
              some (LinkingSymbol.ofOverride symbol (some sym_name)
                (overridden_value.getD UNDEFINED_SYMBOL_VALUE))
            | none =>
              some (LinkingSymbol.ofSym symbol (some sym_name) ld.base
                ld.base_virtual_address)
          else
            some (LinkingSymbol.ofSym symbol (some sym_name) ld.base
              ld.base_virtual_address)
      else
        some (LinkingSymbol.ofSym symbol none ld.base ld.base_virtual_address)

/-- `JNI::find_local_symbol_by_name`: search `.gnu.hash` first, then
`.hash`; there is no linear `.dynsym` scan.  A present-but-unreadable
hash section aborts the lookup (the Rust `?` operator on a failed
section read).  Overrides are consulted only after a hash hit and only
when requested. -/
def find_local_symbol_by_name (ld : Loader) (symbol_name : String)
    (include_overrides : Bool) : Option LinkingSymbol :=
  let mk : ElfSym → Option LinkingSymbol := fun symbol =>
    if include_overrides then
      match lookupAssoc ld.symbol_overrides symbol_name with
      | some overridden_value =>
        some (LinkingSymbol.ofOverride symbol (some symbol_name)
          (overridden_value.getD UNDEFINED_SYMBOL_VALUE))
      | none =>
        some (LinkingSymbol.ofSym symbol (some symbol_name) ld.base
          ld.base_virtual_address)
    else
      some (LinkingSymbol.ofSym symbol (some symbol_name) ld.base
        ld.base_virtual_address)
  let sysv : Option LinkingSymbol :=
    match ld.sysv_hash with
    | none => none
    | some none => none
    | some (some tbl) =>
      match ld.dynsym with
      | none => none
      | some _ =>
        match lookupAssoc tbl symbol_name with
        | some symbol => mk symbol
        | none => none
  match ld.gnu_hash with
  | none => sysv
  | some none => none
  | some (some tbl) =>
    match ld.dynsym with
    | none => none
    | some _ =>
      match lookupAssoc tbl symbol_name with
      | some symbol => mk symbol
      | none => sysv

/-- Pointwise update of one loader in the world of loaders. -/
def update_loader (id : Nat) (f : Loader → Loader) (w : Nat → Loader) :
    Nat → Loader :=
  fun j => if j = id then f (w j) else w j

/-- Set or clear one loader's `looking_for_symbol` recursion guard. -/
def set_looking (id : Nat) (b : Bool) (w : Nat → Loader) : Nat → Loader :=
  update_loader id (fun ld => { ld with looking_for_symbol := b }) w

/-- The dependency loop of `JNI::find_global_symbol`: for each present
dependency, search its local tables and (eagerly, as Rust's `Option::or`
evaluates its argument) its own dependencies, threading the world whose
`looking_for_symbol` flags the recursion mutates. -/
def search_dependencies
    (recur : (Nat → Loader) → Nat → Option LinkingSymbol × (Nat → Loader))
    (symbol_name : String) (include_overrides : Bool) :
    (Nat → Loader) → List (String × Option Nat) →
      Option LinkingSymbol × (Nat → Loader)
  | w, [] => (none, w)
  | w, (_, none) :: rest =>
    search_dependencies recur symbol_name include_overrides w rest
  | w, (_, some d) :: rest =>
    let local_result := find_local_symbol_by_name (w d) symbol_name include_overrides
    let global := recur w d
    match local_result.or global.1 with
    | some s => (some s, global.2)
    | none => search_dependencies recur symbol_name include_overrides global.2 rest

/-- `JNI::find_global_symbol`: guarded by `looking_for_symbol`, which is
set on entry and cleared on every exit path.  The fuel argument only
bounds the recursion depth of the model; the code's own termination
argument is the guard flag. -/
def find_global_symbol :
    Nat → (Nat → Loader) → Nat → String → Bool →
      Option LinkingSymbol × (Nat → Loader)
  | 0, w, _, _, _ => (none, w)
  | fuel + 1, w, id, symbol_name, include_overrides =>
    if (w id).looking_for_symbol then (none, w)
    else
      let w1 := set_looking id true w
      let r := search_dependencies
        (fun w' d => find_global_symbol fuel w' d symbol_name include_overrides)
        symbol_name include_overrides w1 ((w1 id).dependencies)
      (r.1, set_looking id false r.2)

/-- `JNI::get_symbol`: local lookup then global, both with
`include_overrides = false`; the returned address is
`self.get_offset(symbol.value)` and the size is the symbol's size. -/
def get_symbol (gfuel : Nat) (w : Nat → Loader) (id : Nat)
    (symbol_name : String) : Option (Nat × Nat) :=
  let ld := w id
  let symbol :=
    match find_local_symbol_by_name ld symbol_name false with
    | some s => some s
    | none => (find_global_symbol gfuel w id symbol_name false).1
  symbol.map fun s =>
    (get_offset ld.base ld.base_virtual_address s.value, s.size)

/-- The `reloc_needs_symbol!` macro in `JNI::initialize`: resolve the
relocation's symbol.  `.ok none` is the `continue` (skip) outcome;
`.error` is the `expect` panic on a nameless unresolved symbol. -/
def resolve_reloc_symbol (ld : Loader)
    (find_global : String → Option LinkingSymbol) (sym_index : Nat) :
    Except String (Option Nat) :=
  if sym_index ≠ 0 then
    match find_local_symbol_by_index ld sym_index true with
    | none => .ok none
    | some local_symbol =>
      match local_symbol.address with
      | some a => .ok (some a)
      | none =>
        match local_symbol.name with
        | none => .error "Cannot lookup symbol without name"
        | some symbol_name =>
          match find_global symbol_name with
          | some s =>
            .ok (some (s.address.getD
              (get_offset ld.base ld.base_virtual_address s.value)))
          | none => .ok none
  else .ok none

/-- One iteration of the x86_64 relocation loop in `JNI::initialize`.
Memory writes are journalled as `(address, width, value)`; an unknown
relocation type is ignored (release-build behaviour; a debug build
panics instead). -/
def apply_relocation (ld : Loader)
    (find_global : String → Option LinkingSymbol)
    (mem : List (Nat × Nat × Nat)) (r : Relocation) :
    Except String (List (Nat × Nat × Nat)) :=
  let target_addr := get_offset ld.base ld.base_virtual_address r.offset
  if r.rel_type = R_X86_64_64 then
    match resolve_reloc_symbol ld find_global r.symbol with
    | .error e => .error e
    | .ok none => .ok mem
    | .ok (some symbol_addr) =>
      .ok ((target_addr, 8, add_addend symbol_addr r.addend) :: mem)
  else if r.rel_type = R_X86_64_PC32 then
    match resolve_reloc_symbol ld find_global r.symbol with
    | .error e => .error e
    | .ok none => .ok mem
    | .ok (some symbol_addr) =>
      .ok ((target_addr, 4,
        usize_sub (add_addend symbol_addr r.addend) target_addr % U32SZ) :: mem)
  else if r.rel_type = R_X86_64_GLOB_DAT ∨ r.rel_type = R_X86_64_JUMP_SLOT then
    match resolve_reloc_symbol ld find_global r.symbol with
    | .error e => .error e
    | .ok none => .ok mem
    | .ok (some symbol_addr) =>
      .ok ((target_addr, 8, symbol_addr % USIZE) :: mem)
  else if r.rel_type = R_X86_64_RELATIVE then
    .ok ((target_addr, 8, add_addend ld.base r.addend) :: mem)
  else if r.rel_type = R_X86_64_NONE ∨ r.rel_type = R_X86_64_COPY then
    .ok mem
  else
    .ok mem

/-- The relocation loop of `JNI::initialize` over the gathered list. -/
def apply_relocations (ld : Loader)
    (find_global : String → Option LinkingSymbol) :
    List (Nat × Nat × Nat) → List Relocation →
      Except String (List (Nat × Nat × Nat))
  | mem, [] => .ok mem
  | mem, r :: rest =>
    match apply_relocation ld find_global mem r with
    | .error e => .error e
    | .ok mem' => apply_relocations ld find_global mem' rest

/-- Relocation gathering in `JNI::initialize`: `.rel.dyn` and `.rela.dyn`
always; `.rel.plt` and `.rela.plt` only when the `inline-asm` PLT
trampoline feature is disabled. -/
def collect_relocations (inline_asm : Bool) (ld : Loader) : List Relocation :=
  ((ld.rel_dyn.getD []).map Relocation.fromRel)
    ++ ((ld.rela_dyn.getD []).map Relocation.fromRela)
    ++ (if inline_asm then []
        else ((ld.rel_plt.getD []).map Relocation.fromRel)
          ++ ((ld.rela_plt.getD []).map Relocation.fromRela))

/-- The `.got.plt` setup of `JNI::initialize` (inline-asm feature):
slot 0 becomes the `0xCAFEBABE` marker, slot 1 the PLT data record's
address, slot 2 the trampoline, and every later slot is rebased through
`get_offset`. -/
def install_got (ld : Loader) : Option (List Nat) :=
  ld.got_plt.map fun slots =>
    let slots := ((slots.set 0 0xCAFEBABE).set 1 ld.plt_data_addr).set 2
      ld.trampoline_addr
    slots.enum.map fun p =>
      if 3 ≤ p.1 then get_offset ld.base ld.base_virtual_address p.2 else p.2

/-- The dependency loop at the top of `JNI::initialize`: recursively
initialize each present dependency. -/
def init_dependencies
    (recur : (Nat → Loader) → Nat → Except String (Nat → Loader)) :
    (Nat → Loader) → List (String × Option Nat) →
      Except String (Nat → Loader)
  | w, [] => .ok w
  | w, (_, none) :: rest => init_dependencies recur w rest
  | w, (_, some d) :: rest =>
    match recur w d with
    | .error e => .error e
    | .ok w' => init_dependencies recur w' rest

/-- The `initialize` method of `JNI`: return immediately when already initialized, else
set the flag, recursively initialize dependencies, apply relocations
and (with the inline-asm feature) install the `.got.plt` data.  `gfuel`
bounds the global-search depth and `fuel` the dependency recursion of
the model; the code's own termination argument is the monotone
`have_been_initialized` flag. -/
def init_loader (inline_asm : Bool) (gfuel : Nat) :
    Nat → (Nat → Loader) → Nat → Except String (Nat → Loader)
  | 0, w, _ => .ok w
  | fuel + 1, w, id =>
    if (w id).have_been_initialized then .ok w
    else
      let w1 := update_loader id
        (fun ld => { ld with have_been_initialized := true }) w
      match init_dependencies (fun w' d => init_loader inline_asm gfuel fuel w' d)
          w1 ((w1 id).dependencies) with
      | .error e => .error e
      | .ok w2 =>
        let ld := w2 id
        let fg := fun nm => (find_global_symbol gfuel w2 id nm true).1
        match apply_relocations ld fg ld.mem (collect_relocations inline_asm ld) with
        | .error e => .error e
        | .ok mem' =>
          let w3 := update_loader id (fun l => { l with mem := mem' }) w2
          let w4 := if inline_asm then
              update_loader id (fun l => { l with got_plt := install_got l }) w3
            else w3
          .ok w4

/-! Arithmetic bridge lemmas between the code's wrapping `usize`
operations and the spec's signed formulas modulo `2 ^ 64`. -/

theorem add_addend_eq (addr : Nat) (a : Int) :
    add_addend addr a = (((addr : Int) + a) % (USIZE : Int)).toNat := by
  unfold add_addend USIZE
  split <;> omega

theorem usize_sub_eq (a b : Nat) :
    usize_sub a b = (((a : Int) - b) % (USIZE : Int)).toNat := by
  unfold usize_sub USIZE
  omega

theorem get_offset_eq (base bva offset : Nat) :
    get_offset base bva offset
      = (((base : Int) + offset - bva) % (USIZE : Int)).toNat := by
  unfold get_offset USIZE
  omega

theorem mod64_to_mod32 (z : Int) :
    ((z % (USIZE : Int)).toNat) % U32SZ = (z % (U32SZ : Int)).toNat := by
  unfold USIZE U32SZ
  omega

/-! ### Claim C2: symbol lookup by `.dynsym` index during relocation -/

/-- The address the spec assigns to an index-resolved symbol record
(C2's words): a named symbol with a valued override gets the override
value; a named symbol with a valueless override gets the sentinel
`0xBABECAFE`; otherwise the address is absent when the ELF value is
`STN_UNDEF` and `image_base + value - base_virtual_address` else. -/
def spec_symbol_address (ld : Loader) (name : Option String) (value : Nat) :
    Option Nat :=
  let plain : Option Nat :=
    if value = STN_UNDEF then none
    else some ((((ld.base : Int) + value - ld.base_virtual_address)
      % (USIZE : Int)).toNat)
  match name with
  | some nm =>
    match lookupAssoc ld.symbol_overrides nm with
    | some (some v) => some v
    | some none => some UNDEFINED_SYMBOL_VALUE
    | none => plain
  | none => plain

/-- C2: every record returned by `find_local_symbol_by_index` with
overrides enabled (the relocation path) carries the address the spec
describes: override value, sentinel for a valueless override, absent
for `STN_UNDEF`, and `image_base + value - base_virtual_address`
otherwise. -/
theorem c2_symbol_by_index_address (ld : Loader) (index : Nat)
    (ls : LinkingSymbol)
    (h : find_local_symbol_by_index ld index true = some ls) :
    ls.address = spec_symbol_address ld ls.name ls.value := by
  unfold find_local_symbol_by_index at h
  match hdyn : ld.dynsym with
  | none => rw [hdyn] at h; exact absurd h (by simp)
  | some (symbol_table, string_table) =>
    rw [hdyn] at h
    simp only [] at h
    match hget : symbol_table.get? index with
    | none => rw [hget] at h; exact absurd h (by simp)
    | some symbol =>
      rw [hget] at h
      simp only [] at h
      by_cases hname : symbol.st_name ≠ 0
      · rw [if_pos hname] at h
        match hstr : lookupAssoc string_table symbol.st_name with
        | none => rw [hstr] at h; exact absurd h (by simp)
        | some sym_name =>
          rw [hstr] at h
          simp only [if_pos rfl, if_true] at h
          match hov : lookupAssoc ld.symbol_overrides sym_name with
          | some overridden_value =>
            rw [hov] at h
            cases h
            cases overridden_value <;>
              simp [spec_symbol_address, LinkingSymbol.ofOverride, hov,
                Option.getD]
          | none =>
            rw [hov] at h
            cases h
            simp only [spec_symbol_address, LinkingSymbol.ofSym, hov]
            split <;> simp [get_offset_eq]

      · rw [if_neg hname] at h
        cases h
        simp only [spec_symbol_address, LinkingSymbol.ofSym]
        split <;> simp [get_offset_eq]

/-- A loader with no parsed sections, used as a base for examples. -/
def emptyLoader : Loader :=
  { base := 0
    base_virtual_address := 0
    dynsym := none
    gnu_hash := none
    sysv_hash := none
    symbol_overrides := []
    dependencies := []
    looking_for_symbol := false
    have_been_initialized := false
    rel_dyn := none
    rela_dyn := none
    rel_plt := none
    rela_plt := none
    got_plt := none
    plt_data_addr := 0
    trampoline_addr := 0
    mem := [] }

/-- An `ElfSym` with every field zero. -/
def zeroSym : ElfSym :=
  { st_name := 0, st_value := 0, st_shndx := 0, st_size := 0
    st_symtype := 0, st_bind := 0, st_vis := 0 }

/-- Example loader for the C2 witness: one named defined symbol at
`.dynsym` index 1, with an override registered for a different name. -/
def c2Loader : Loader :=
  { emptyLoader with
    base := 0x7F0000000000
    base_virtual_address := 0x1000
    dynsym := some ([zeroSym,
      { zeroSym with st_name := 5, st_value := 0x2028, st_size := 16 }],
      [(5, "m_cube")])
    symbol_overrides := [("printf", some 0x1234)] }

/-- Witness for C2 at a concrete loader and index. -/
theorem c2_symbol_by_index_address_witness :
    (find_local_symbol_by_index c2Loader 1 true).isSome = true
      ∧ ((find_local_symbol_by_index c2Loader 1 true).getD
          (LinkingSymbol.ofSym zeroSym none 0 0)).address
        = spec_symbol_address c2Loader (some "m_cube") 0x2028 := by
  refine ⟨by decide, ?_⟩
  have h := c2_symbol_by_index_address c2Loader 1
    ((find_local_symbol_by_index c2Loader 1 true).getD
      (LinkingSymbol.ofSym zeroSym none 0 0)) (by decide)
  rw [h]
  decide

/-! ### Claim C1: x86_64 relocation semantics -/

/-- Bridge for the `R_X86_64_PC32` computation: the code's wrapping
`usize` chain truncated to 32 bits equals the signed `S + A - P`
reduced modulo `2 ^ 32`. -/
theorem pc32_bridge (S P : Nat) (A : Int) :
    usize_sub (add_addend S A) P % U32SZ
      = (((S : Int) + A - P) % (U32SZ : Int)).toNat := by
  unfold usize_sub add_addend USIZE U32SZ
  split <;> omega

/-- The spec's x86_64 relocation table (claim C1's words).  `P` is the
target address `image_base + r_offset - base_virtual_address`; the
written values are `S + A` (64-bit), `S + A - P` (32-bit), `S`
(64-bit), `image_base + A` (64-bit), with signed addends and machine
modular arithmetic; `R_X86_64_NONE` and `R_X86_64_COPY` write
nothing. -/
def spec_reloc_step (ld : Loader) (S : Nat) (mem : List (Nat × Nat × Nat))
    (r : Relocation) : List (Nat × Nat × Nat) :=
  let P : Nat := (((ld.base : Int) + r.offset - ld.base_virtual_address)
    % (USIZE : Int)).toNat
  if r.rel_type = R_X86_64_64 then
    (P, 8, (((S : Int) + r.addend) % (USIZE : Int)).toNat) :: mem
  else if r.rel_type = R_X86_64_PC32 then
    (P, 4, (((S : Int) + r.addend - P) % (U32SZ : Int)).toNat) :: mem
  else if r.rel_type = R_X86_64_GLOB_DAT ∨ r.rel_type = R_X86_64_JUMP_SLOT then
    (P, 8, S) :: mem
  else if r.rel_type = R_X86_64_RELATIVE then
    (P, 8, (((ld.base : Int) + r.addend) % (USIZE : Int)).toNat) :: mem
  else mem

/-- C1: every relocation the engine applies writes exactly the value the
spec's architecture table prescribes at
`image_base + r_offset - base_virtual_address`, with addends signed.
The rows that need a symbol (`R_X86_64_64`, `PC32`, `GLOB_DAT`,
`JUMP_SLOT`) are settled under the hypothesis that the symbol resolved
to `S`; the `R_X86_64_RELATIVE` row (writes `image_base + A`) and the
`R_X86_64_NONE`/`R_X86_64_COPY` rows (write nothing) are settled
unconditionally — in particular for the symbol index 0 such entries
actually carry, where no symbol is ever resolved.  REL-form entries
normalise to addend 0. -/
theorem c1_relocation_semantics (ld : Loader)
    (fg : String → Option LinkingSymbol) (mem : List (Nat × Nat × Nat))
    (r : Relocation) :
    (∀ S : Nat, resolve_reloc_symbol ld fg r.symbol = .ok (some S) →
      S < USIZE →
      apply_relocation ld fg mem r = .ok (spec_reloc_step ld S mem r))
      ∧ (r.rel_type = R_X86_64_RELATIVE →
          apply_relocation ld fg mem r
            = .ok (((((ld.base : Int) + r.offset - ld.base_virtual_address)
                  % (USIZE : Int)).toNat, 8,
                (((ld.base : Int) + r.addend) % (USIZE : Int)).toNat) :: mem))
      ∧ (r.rel_type = R_X86_64_NONE ∨ r.rel_type = R_X86_64_COPY →
          apply_relocation ld fg mem r = .ok mem)
      ∧ ∀ rel : Rel, (Relocation.fromRel rel).addend = 0 := by
  refine ⟨?_, ?_, ?_, fun rel => rfl⟩
  · intro S hres hS
    simp only [apply_relocation, spec_reloc_step, hres]
    split_ifs with h1 h2 h3 h4 h5
    · rw [get_offset_eq, add_addend_eq]
    · rw [get_offset_eq, pc32_bridge]
    · rw [get_offset_eq, Nat.mod_eq_of_lt hS]
    · rw [get_offset_eq, add_addend_eq]
    · rfl
    · rfl
  · intro h
    simp only [apply_relocation, h, R_X86_64_RELATIVE, R_X86_64_64,
      R_X86_64_PC32, R_X86_64_GLOB_DAT, R_X86_64_JUMP_SLOT]
    norm_num
    rw [get_offset_eq, add_addend_eq]
    exact ⟨rfl, rfl⟩
  · intro h
    rcases h with h | h <;>
      simp [apply_relocation, h, R_X86_64_RELATIVE, R_X86_64_64,
        R_X86_64_PC32, R_X86_64_GLOB_DAT, R_X86_64_JUMP_SLOT,
        R_X86_64_NONE, R_X86_64_COPY]

/-- Example loader for the C1 witness: `.dynsym` index 1 names a defined
symbol `pow_int` at file virtual address `0x100`. -/
def c1Loader : Loader :=
  { emptyLoader with
    base := 0x10000
    base_virtual_address := 0x1000
    dynsym := some ([zeroSym,
      { zeroSym with st_name := 1, st_value := 0x100, st_size := 8 }],
      [(1, "pow_int")]) }

/-- The concrete symbol-requiring relocation used by the C1 witness:
`R_X86_64_64` against symbol index 1 with a negative addend. -/
def c1Reloc : Relocation :=
  { offset := 8, rel_type := 1, symbol := 1, addend := -4 }

/-- A concrete `R_X86_64_RELATIVE` entry with symbol index 0, as such
entries appear in `.rela.dyn`. -/
def c1RelativeReloc : Relocation :=
  { offset := 0x10, rel_type := 8, symbol := 0, addend := 0x2000 }

/-- A concrete `R_X86_64_NONE` entry with symbol index 0. -/
def c1NoneReloc : Relocation :=
  { offset := 0, rel_type := 0, symbol := 0, addend := 0 }

/-- Witness for C1 at a concrete loader: a resolved `R_X86_64_64`
entry, an `R_X86_64_RELATIVE` entry with symbol index 0, and an
`R_X86_64_NONE` entry with symbol index 0. -/
theorem c1_relocation_semantics_witness :
    apply_relocation c1Loader (fun _ => none) [] c1Reloc
        = .ok (spec_reloc_step c1Loader 0xF100 [] c1Reloc)
      ∧ apply_relocation c1Loader (fun _ => none) [] c1RelativeReloc
        = .ok (((((c1Loader.base : Int) + c1RelativeReloc.offset
              - c1Loader.base_virtual_address) % (USIZE : Int)).toNat, 8,
            (((c1Loader.base : Int) + c1RelativeReloc.addend)
              % (USIZE : Int)).toNat) :: [])
      ∧ apply_relocation c1Loader (fun _ => none) [] c1NoneReloc = .ok [] := by
  refine ⟨?_, ?_, ?_⟩
  · exact (c1_relocation_semantics c1Loader (fun _ => none) [] c1Reloc).1
      0xF100 (by rfl) (by norm_num [USIZE])
  · exact (c1_relocation_semantics c1Loader (fun _ => none) []
      c1RelativeReloc).2.1 (by rfl)
  · exact (c1_relocation_semantics c1Loader (fun _ => none) []
      c1NoneReloc).2.2.1 (Or.inl (by rfl))

/-! ### Claim C3: unresolved symbols and skipped relocations -/

/-- The x86_64 relocation types whose handling invokes the
`reloc_needs_symbol!` macro. -/
def reloc_needs_symbol (t : Nat) : Bool :=
  t == R_X86_64_64 || t == R_X86_64_PC32
    || t == R_X86_64_GLOB_DAT || t == R_X86_64_JUMP_SLOT

/-- Loader whose only `.rela.dyn` entry names `.dynsym` index 1, which
is a symbol with neither a name (`st_name = 0`) nor a value. -/
def c3PanicLoader : Loader :=
  { emptyLoader with
    dynsym := some ([zeroSym, zeroSym], [])
    rela_dyn := some [{ r_offset := 0x10, r_type := 1, r_sym := 1, r_addend := 0 }] }

/-- The world for the C3 counterexample. -/
def c3World : Nat → Loader := fun _ => c3PanicLoader

/-- C3 counterexample: the claim says a relocation whose symbol cannot
be resolved is skipped with memory untouched, never failing.  But when
the relocation names a symbol with no address and no name, `initialize`
panics in `expect("Cannot lookup symbol without name")` instead of
skipping: here symbol index 1 is nameless and valueless, no override
applies and no dependency defines it, and initialization fails. -/
theorem c3_nameless_symbol_panics :
    init_loader false 1 1 c3World 0
      = .error "Cannot lookup symbol without name" := by
  rfl

/-- C3 amended: for a relocation whose type requires a symbol, whenever
symbol resolution reports failure (index lookup failed, or the symbol
has a name but resolves neither locally nor globally and no override
applies), the relocation is skipped and the memory journal is
unchanged. -/
theorem c3_unresolved_skipped (ld : Loader)
    (fg : String → Option LinkingSymbol) (mem : List (Nat × Nat × Nat))
    (r : Relocation)
    (hneed : reloc_needs_symbol r.rel_type = true)
    (hres : resolve_reloc_symbol ld fg r.symbol = .ok none) :
    apply_relocation ld fg mem r = .ok mem := by
  have h : ((r.rel_type = 1 ∨ r.rel_type = 2) ∨ r.rel_type = 6)
      ∨ r.rel_type = 7 := by
    simpa [reloc_needs_symbol, R_X86_64_64, R_X86_64_PC32, R_X86_64_GLOB_DAT,
      R_X86_64_JUMP_SLOT] using hneed
  rcases h with ((h | h) | h) | h <;>
    simp [apply_relocation, h, hres, R_X86_64_64, R_X86_64_PC32,
      R_X86_64_GLOB_DAT, R_X86_64_JUMP_SLOT, R_X86_64_RELATIVE,
      R_X86_64_NONE, R_X86_64_COPY]

/-- Loader for the C3 witness: `.dynsym` index 1 names an undefined
symbol `absent_import` with no override registered. -/
def c3SkipLoader : Loader :=
  { emptyLoader with
    dynsym := some ([zeroSym, { zeroSym with st_name := 3 }],
      [(3, "absent_import")]) }

/-- Witness for the amended C3 at a concrete unresolvable relocation. -/
theorem c3_unresolved_skipped_witness :
    reloc_needs_symbol 6 = true
      ∧ resolve_reloc_symbol c3SkipLoader (fun _ => none) 1 = .ok none
      ∧ apply_relocation c3SkipLoader (fun _ => none)
          [(0xAA, 8, 0xBB)]
          { offset := 0x20, rel_type := 6, symbol := 1, addend := 0 }
        = .ok [(0xAA, 8, 0xBB)] := by
  refine ⟨by decide, by rfl, ?_⟩
  exact c3_unresolved_skipped c3SkipLoader (fun _ => none) [(0xAA, 8, 0xBB)]
    { offset := 0x20, rel_type := 6, symbol := 1, addend := 0 }
    (by decide) (by rfl)

/-! ### Claim C4: idempotence of `initialize` -/

theorem update_loader_same (id : Nat) (f : Loader → Loader)
    (w : Nat → Loader) : update_loader id f w id = f (w id) := by
  simp [update_loader]

theorem update_loader_other (id : Nat) (f : Loader → Loader)
    (w : Nat → Loader) (j : Nat) (h : j ≠ id) :
    update_loader id f w j = w j := by
  simp [update_loader, h]

/-- The dependency-initialization loop never clears an
`have_been_initialized` flag, provided its recursive call does not. -/
theorem init_dependencies_mono
    (recur : (Nat → Loader) → Nat → Except String (Nat → Loader))
    (hrec : ∀ w d w', recur w d = .ok w' →
      ∀ j, (w j).have_been_initialized = true →
        (w' j).have_been_initialized = true) :
    ∀ (deps : List (String × Option Nat)) (w w' : Nat → Loader),
      init_dependencies recur w deps = .ok w' →
      ∀ j, (w j).have_been_initialized = true →
        (w' j).have_been_initialized = true := by
  intro deps
  induction deps with
  | nil =>
    intro w w' h j hj
    simp only [init_dependencies] at h
    cases h
    exact hj
  | cons hd tl ih =>
    intro w w' h j hj
    match hd with
    | (nm, none) =>
      simp only [init_dependencies] at h
      exact ih w w' h j hj
    | (nm, some d) =>
      simp only [init_dependencies] at h
      cases hr : recur w d with
      | error e => rw [hr] at h; cases h
      | ok w1 =>
        rw [hr] at h
        exact ih w1 w' h j (hrec w d w1 hr j hj)

/-- `initialize` never clears an `have_been_initialized` flag. -/
theorem init_loader_mono (ia : Bool) (g : Nat) :
    ∀ (fuel : Nat) (w : Nat → Loader) (id : Nat) (w' : Nat → Loader),
      init_loader ia g fuel w id = .ok w' →
      ∀ j, (w j).have_been_initialized = true →
        (w' j).have_been_initialized = true := by
  intro fuel
  induction fuel with
  | zero =>
    intro w id w' h j hj
    simp only [init_loader] at h
    cases h
    exact hj
  | succ n ih =>
    intro w id w' h j hj
    simp only [init_loader] at h
    by_cases hinit : (w id).have_been_initialized
    · rw [if_pos hinit] at h
      cases h
      exact hj
    · rw [if_neg hinit] at h
      have hj1 : ((update_loader id
          (fun ld => { ld with have_been_initialized := true }) w) j
            ).have_been_initialized = true := by
        by_cases hji : j = id
        · subst hji; simp [update_loader]
        · simpa [update_loader, hji] using hj
      split at h
      · cases h
      · rename_i w2 hdep
        have hj2 : (w2 j).have_been_initialized = true :=
          init_dependencies_mono _ (fun w d w' hr => ih w d w' hr)
            _ _ w2 hdep j hj1
        split at h
        · cases h
        · rename_i mem' hrel
          cases h
          by_cases hji : j = id
          · subst hji
            by_cases hia : ia = true <;>
              simp [hia, update_loader, hj2]
          · by_cases hia : ia = true <;>
              simp [hia, update_loader, hji, hj2]

/-- A completed `initialize` leaves the target loader flagged as
initialized. -/
theorem init_loader_sets_flag (ia : Bool) (g n : Nat) (w : Nat → Loader)
    (id : Nat) (w' : Nat → Loader)
    (h : init_loader ia g (n + 1) w id = .ok w') :
    (w' id).have_been_initialized = true := by
  simp only [init_loader] at h
  by_cases hinit : (w id).have_been_initialized
  · rw [if_pos hinit] at h
    cases h
    exact hinit
  · rw [if_neg hinit] at h
    have hflag : ((update_loader id
        (fun ld => { ld with have_been_initialized := true }) w) id
          ).have_been_initialized = true := by
      simp [update_loader]
    split at h
    · cases h
    · rename_i w2 hdep
      have hflag2 : (w2 id).have_been_initialized = true :=
        init_dependencies_mono _
          (fun w d w' hr => init_loader_mono ia g n w d w' hr)
          _ _ w2 hdep id hflag
      split at h
      · cases h
      · rename_i mem' hrel
        cases h
        by_cases hia : ia = true <;>
          simp [hia, update_loader, hflag2]

/-- C4: `initialize` is idempotent.  Once a call has completed, the
target loader's `have_been_initialized` flag is set, so a second call
returns immediately and the whole world of loaders (image write
journals, GOT slots, dependency states) is exactly the state after the
first call. -/
theorem c4_initialize_idempotent (ia : Bool) (g fuel : Nat)
    (w : Nat → Loader) (id : Nat) (w' : Nat → Loader)
    (hfuel : 0 < fuel)
    (h : init_loader ia g fuel w id = .ok w') :
    init_loader ia g fuel w' id = .ok w' := by
  obtain ⟨n, rfl⟩ : ∃ n, fuel = n + 1 := ⟨fuel - 1, by omega⟩
  have hflag := init_loader_sets_flag ia g n w id w' h
  simp [init_loader, hflag]

/-- A world of loaders that are already initialized. -/
def c4World : Nat → Loader :=
  fun _ => { emptyLoader with have_been_initialized := true }

/-- Witness for C4 at a concrete world. -/
theorem c4_initialize_idempotent_witness :
    0 < 1
      ∧ init_loader false 1 1 c4World 0 = .ok c4World
      ∧ init_loader false 1 1 c4World 0 = .ok c4World := by
  refine ⟨by decide, by rfl, ?_⟩
  exact c4_initialize_idempotent false 1 1 c4World 0 c4World (by decide) (by rfl)

/-! ### Claim C5: `JNI::new` error kinds and `base_virtual_address` -/

/-- An ELF program header (`elf::segment::ProgramHeader`). -/
structure Phdr where
  p_type : Nat
  p_offset : Nat
  p_vaddr : Nat
  p_filesz : Nat
  p_memsz : Nat
  p_flags : Nat
  p_align : Nat
deriving DecidableEq

/-- The loader's error kinds (`enum Error` in jni.rs). -/
inductive LoadError
  | fileNotFound
  | failedToOpen
  | notDynamicObject
  | memoryMapFailed (reason : String)
  | noDynamicSection
deriving DecidableEq

/-- The filesystem / parser / mmap oracle inputs consumed by `JNI::new`:
whether the path exists, whether each of the two `File::open` calls and
the ELF parse succeed, the parsed `e_type` and program headers, and the
outcome of `MemoryMapping::new`. -/
structure NewInput where
  path_exists : Bool
  open_ok : Bool
  open_mapping_ok : Bool
  parse_ok : Bool
  e_type : Nat
  segments : List Phdr
  mmap_result : Except String (Nat × Nat)

/-- Outcome of `JNI::new`: a constructed loader (base address and
`base_virtual_address`), an error, or a Rust panic. -/
inductive NewResult
  | ok (base : Nat) (base_virtual_address : Nat)
  | err (e : LoadError)
  | panicked (msg : String)
deriving DecidableEq

/-- `JNI::new`: the error ladder of jni.rs lines 42-63, then
`base_virtual_address` is taken from the **first** `PT_LOAD` program
header (`segments().iter().find(PT_LOAD).unwrap()`). -/
def JNI_new (inp : NewInput) : NewResult :=
  if !inp.path_exists then .err .fileNotFound
  else if !inp.open_ok then .err .failedToOpen
  else if !inp.open_mapping_ok then .err .failedToOpen
  else if !inp.parse_ok then .err .failedToOpen
  else if inp.e_type ≠ ET_DYN then .err .notDynamicObject
  else
    match inp.mmap_result with
    | .error e => .err (.memoryMapFailed e)
    | .ok (base, _) =>
      match inp.segments.find? (fun s => s.p_type == PT_LOAD) with
      | none => .panicked "unwrap on None"
      | some seg => .ok base seg.p_vaddr

/-- The lowest `p_vaddr` among the `PT_LOAD` program headers (what the
claim says `base_virtual_address` should be). -/
def lowest_pt_load_vaddr (segs : List Phdr) : Option Nat :=
  match (segs.filter (fun s => s.p_type == PT_LOAD)).map Phdr.p_vaddr with
  | [] => none
  | v :: rest => some (rest.foldl Nat.min v)

/-- C5 counterexample input: a well-formed call where the two `PT_LOAD`
headers are not sorted by `p_vaddr` (the ELF spec requires ascending
order, but `JNI::new` never checks), and the memory image oracle
succeeds. -/
def c5UnsortedInput : NewInput :=
  { path_exists := true
    open_ok := true
    open_mapping_ok := true
    parse_ok := true
    e_type := 3
    segments :=
      [{ p_type := 1, p_offset := 0x2000, p_vaddr := 0x2000, p_filesz := 0x10,
         p_memsz := 0x10, p_flags := 5, p_align := 0x1000 },
       { p_type := 1, p_offset := 0x1000, p_vaddr := 0x1000, p_filesz := 0x10,
         p_memsz := 0x2000, p_flags := 6, p_align := 0x1000 }]
    mmap_result := .ok (0x7F0000000000, 0x2000) }

/-- C5 counterexample: on success `base_virtual_address` is the first
`PT_LOAD`'s `p_vaddr`, which differs from the lowest `PT_LOAD` `p_vaddr`
when the program headers are unsorted. -/
theorem c5_first_not_lowest :
    JNI_new c5UnsortedInput = .ok 0x7F0000000000 0x2000
      ∧ lowest_pt_load_vaddr c5UnsortedInput.segments = some 0x1000
      ∧ (0x2000 : Nat) ≠ 0x1000 := by
  refine ⟨by rfl, by rfl, by decide⟩

/-- C5 amended: `new(path)` fails with `file-not-found` when the path
does not exist, `open-failed` when an open or the ELF parse fails,
`not-dynamic-object` when `e_type ≠ ET_DYN`, `memory-map-failed{reason}`
when the memory image cannot be created; on success the loader's
`base_virtual_address` is the **first** `PT_LOAD`'s `p_vaddr` (equal to
the lowest only when the headers are sorted as the ELF spec
requires). -/
theorem c5_new_error_kinds (inp : NewInput) :
    (inp.path_exists = false → JNI_new inp = .err .fileNotFound)
      ∧ (inp.path_exists = true →
          inp.open_ok = false ∨ inp.open_mapping_ok = false ∨ inp.parse_ok = false →
          JNI_new inp = .err .failedToOpen)
      ∧ (inp.path_exists = true → inp.open_ok = true →
          inp.open_mapping_ok = true → inp.parse_ok = true →
          inp.e_type ≠ ET_DYN → JNI_new inp = .err .notDynamicObject)
      ∧ (∀ e, inp.path_exists = true → inp.open_ok = true →
          inp.open_mapping_ok = true → inp.parse_ok = true →
          inp.e_type = ET_DYN → inp.mmap_result = .error e →
          JNI_new inp = .err (.memoryMapFailed e))
      ∧ (∀ base size seg, inp.path_exists = true → inp.open_ok = true →
          inp.open_mapping_ok = true → inp.parse_ok = true →
          inp.e_type = ET_DYN → inp.mmap_result = .ok (base, size) →
          inp.segments.find? (fun s => s.p_type == PT_LOAD) = some seg →
          JNI_new inp = .ok base seg.p_vaddr) := by
  refine ⟨?_, ?_, ?_, ?_, ?_⟩
  · intro h; simp [JNI_new, h]
  · intro h1 h2
    rcases h2 with h2 | h2 | h2 <;> simp [JNI_new, h1, h2]
  · intro h1 h2 h3 h4 h5; simp [JNI_new, h1, h2, h3, h4, h5]
  · intro e h1 h2 h3 h4 h5 h6; simp [JNI_new, h1, h2, h3, h4, h5, h6]
  · intro base size seg h1 h2 h3 h4 h5 h6 h7
    simp [JNI_new, h1, h2, h3, h4, h5, h6, h7]

/-- A call against a path that does not exist. -/
def c5MissingInput : NewInput :=
  { path_exists := false, open_ok := false, open_mapping_ok := false
    parse_ok := false, e_type := 0, segments := []
    mmap_result := .error "unused" }

/-- A call against an `ET_EXEC` (non-`ET_DYN`) file. -/
def c5NotDynInput : NewInput :=
  { path_exists := true, open_ok := true, open_mapping_ok := true
    parse_ok := true, e_type := 2, segments := []
    mmap_result := .error "unused" }

/-- Witness for the amended C5 at concrete inputs for the missing-file,
wrong-type and success branches. -/
theorem c5_new_error_kinds_witness :
    JNI_new c5MissingInput = .err .fileNotFound
      ∧ JNI_new c5NotDynInput = .err .notDynamicObject
      ∧ JNI_new c5UnsortedInput = .ok 0x7F0000000000 0x2000 := by
  refine ⟨(c5_new_error_kinds c5MissingInput).1 (by rfl), ?_, ?_⟩
  · exact (c5_new_error_kinds c5NotDynInput).2.2.1 (by rfl) (by rfl) (by rfl)
      (by rfl) (by decide)
  · exact (c5_new_error_kinds c5UnsortedInput).2.2.2.2 0x7F0000000000 0x2000
      { p_type := 1, p_offset := 0x2000, p_vaddr := 0x2000, p_filesz := 0x10,
        p_memsz := 0x10, p_flags := 5, p_align := 0x1000 }
      (by rfl) (by rfl) (by rfl) (by rfl) (by rfl) (by rfl) (by rfl)

/-! ### Claim C8: over-aligned segments abort `MemoryMapping::new` -/

/-- `align_down(addr, page_size)`: `addr & !(page_size - 1)` in the
source; for the power-of-two page sizes the OS hands out this equals
clearing the remainder. -/
def align_down (addr page_size : Nat) : Nat := addr - addr % page_size

/-- `align_up(addr, page_size)` from mmap.rs. -/
def align_up (addr page_size : Nat) : Nat := align_down (addr + page_size - 1) page_size

/-- Outcome of `MemoryMapping::new`: a mapping, an `Err(String)`
returned to the caller, or a Rust panic (`assert!`/index out of
bounds). -/
inductive MmapResult
  | ok (base : Nat) (size : Nat)
  | err (reason : String)
  | panicked (msg : String)
deriving DecidableEq

/-- Does the outcome return an explicit error value to the caller? -/
def MmapResult.is_err_value : MmapResult → Bool
  | .err _ => true
  | _ => false

/-- The `load_alignment` accumulator of `MemoryMapping::new`: the
maximum `p_align` over the `PT_LOAD` headers, starting from 0. -/
def max_load_alignment (phs : List Phdr) : Nat :=
  phs.foldl (fun acc ph => if ph.p_type == PT_LOAD then Nat.max acc ph.p_align else acc) 0

/-- `MemoryMapping::new` up to the address-space reservation, with the
`sysconf`, `mmap` reservation and segment-population syscalls as
oracles.  The `assert!(load_alignment <= page_size)` becomes a
`panicked` outcome, and an empty `PT_LOAD` list panics at
`load_commands[0]`. -/
def memory_mapping_new (page_size_result : Except String (Option Nat))
    (phs : List Phdr) (reserve_result : Except String Nat)
    (populate_result : Except String Unit) : MmapResult :=
  match page_size_result with
  | .error e => .err e
  | .ok none => .err "Page size cannot be empty"
  | .ok (some page_size) =>
    let load_commands := phs.filter (fun ph => ph.p_type == PT_LOAD)
    let load_alignment := max_load_alignment phs
    if load_alignment > page_size then
      .panicked "Alignment larger than page size, please open an issue on GitHub"
    else
      match load_commands with
      | [] => .panicked "index out of bounds"
      | first :: rest =>
        let last := rest.getLastD first
        let virtual_mapping_base := align_down first.p_vaddr page_size
        let mapping_size :=
          align_up (usize_sub (last.p_vaddr + last.p_memsz) virtual_mapping_base)
            page_size
        match reserve_result with
        | .error errno => .err errno
        | .ok base =>
          match populate_result with
          | .error errno => .err errno
          | .ok _ => .ok base mapping_size

/-- A `PT_LOAD` header whose alignment (0x4000) exceeds a 0x1000 page. -/
def c8OverAlignedSeg : Phdr :=
  { p_type := 1, p_offset := 0, p_vaddr := 0, p_filesz := 0x100,
    p_memsz := 0x100, p_flags := 4, p_align := 0x4000 }

/-- C8 counterexample: with `p_align` larger than the page size,
`MemoryMapping::new` panics through `assert!` rather than returning an
error value to the caller, even though every oracle call would have
succeeded. -/
theorem c8_alignment_asserts :
    memory_mapping_new (.ok (some 0x1000)) [c8OverAlignedSeg]
        (.ok 0x7F0000000000) (.ok ())
      = .panicked "Alignment larger than page size, please open an issue on GitHub"
      ∧ (memory_mapping_new (.ok (some 0x1000)) [c8OverAlignedSeg]
          (.ok 0x7F0000000000) (.ok ())).is_err_value = false := by
  refine ⟨by rfl, by rfl⟩

/-- C8 amended: when the maximum `PT_LOAD` `p_align` exceeds the system
page size, `MemoryMapping::new` aborts with the `assert!` panic instead
of returning an error value, regardless of the remaining syscall
outcomes. -/
theorem c8_alignment_panics (page_size : Nat) (phs : List Phdr)
    (reserve_result : Except String Nat) (populate_result : Except String Unit)
    (h : max_load_alignment phs > page_size) :
    memory_mapping_new (.ok (some page_size)) phs reserve_result populate_result
      = .panicked "Alignment larger than page size, please open an issue on GitHub" := by
  simp [memory_mapping_new, h]

/-- Witness for the amended C8 at a concrete over-aligned input. -/
theorem c8_alignment_panics_witness :
    max_load_alignment [c8OverAlignedSeg] > 0x1000
      ∧ memory_mapping_new (.ok (some 0x1000)) [c8OverAlignedSeg]
          (.error "ENOMEM") (.ok ())
        = .panicked "Alignment larger than page size, please open an issue on GitHub" := by
  refine ⟨by decide, ?_⟩
  exact c8_alignment_panics 0x1000 [c8OverAlignedSeg] (.error "ENOMEM") (.ok ())
    (by decide)

/-! ### Claim C9: permissions of the fabricated dl-API thunk page -/

/-- Page protection bits. -/
structure PagePerm where
  readable : Bool
  writable : Bool
  executable : Bool
deriving DecidableEq

/-- `PROT_READ | PROT_WRITE | PROT_EXEC`. -/
def PROT_RWX : PagePerm := { readable := true, writable := true, executable := true }

/-- `PROT_READ | PROT_EXEC`. -/
def PROT_RX : PagePerm := { readable := true, writable := false, executable := true }

/-- One observable step of `DlopenSymbols::new` on its thunk page. -/
inductive DlStep
  | mmapPage (prot : PagePerm) (size : Nat)
  | writeMem (offset : Nat) (len : Nat)
  | mprotectPage (prot : PagePerm)
deriving DecidableEq

/-- `TRAMPOLINE_SIZE` from dlfcn/x86_64.rs. -/
def TRAMPOLINE_SIZE : Nat := 64

/-- `JNI_OFFSET` from dlfcn/x86_64.rs. -/
def JNI_OFFSET : Nat := 0

/-- `FN_OFFSET` from dlfcn/x86_64.rs. -/
def FN_OFFSET : Nat := 8

/-- The sequence of page operations performed by `DlopenSymbols::new`
(dlfcn.rs): one `mmap` of the rounded-up size with
`PROT_READ | PROT_WRITE | PROT_EXEC`, then for each of the three thunks
a trampoline `memcpy` and two pointer-slot stores (offsets relative to
the mapping base), then one `mprotect` to `PROT_READ | PROT_EXEC`. -/
def dlopen_symbols_steps (page_size : Nat) : List DlStep :=
  let mapping_size := align_up (3 * TRAMPOLINE_SIZE) page_size
  [ .mmapPage PROT_RWX mapping_size,
    .writeMem 0 TRAMPOLINE_SIZE,
    .writeMem JNI_OFFSET 8,
    .writeMem FN_OFFSET 8,
    .writeMem TRAMPOLINE_SIZE TRAMPOLINE_SIZE,
    .writeMem (TRAMPOLINE_SIZE + JNI_OFFSET) 8,
    .writeMem (TRAMPOLINE_SIZE + FN_OFFSET) 8,
    .writeMem (2 * TRAMPOLINE_SIZE) TRAMPOLINE_SIZE,
    .writeMem (2 * TRAMPOLINE_SIZE + JNI_OFFSET) 8,
    .writeMem (2 * TRAMPOLINE_SIZE + FN_OFFSET) 8,
    .mprotectPage PROT_RX ]

/-- The successive protections the page goes through. -/
def page_prots (steps : List DlStep) : List PagePerm :=
  steps.filterMap fun s =>
    match s with
    | .mmapPage p _ => some p
    | .mprotectPage p => some p
    | _ => none

/-- The protection in force after all steps. -/
def final_prot (steps : List DlStep) : PagePerm :=
  steps.foldl (fun acc s =>
    match s with
    | .mmapPage p _ => p
    | .mprotectPage p => p
    | _ => acc) { readable := false, writable := false, executable := false }

/-- Does any memory write happen after a protection change? -/
def writes_after_transition (steps : List DlStep) : Bool :=
  (steps.foldl (fun (st : Bool × Bool) s =>
    match s with
    | .mprotectPage _ => (true, st.2)
    | .writeMem _ _ => (st.1, st.2 || st.1)
    | _ => st) (false, false)).2

/-- C9 counterexample: the thunk page is **not** first mapped merely
readable and writable — `DlopenSymbols::new` maps it
`PROT_READ | PROT_WRITE | PROT_EXEC`, so during the patching window the
page is simultaneously writable and executable. -/
theorem c9_rwx_window :
    (page_prots (dlopen_symbols_steps 0x1000)).head? = some PROT_RWX
      ∧ PROT_RWX.writable = true
      ∧ PROT_RWX.executable = true := by
  refine ⟨by rfl, by rfl, by rfl⟩

/-- C9 amended: the thunk page is mapped readable+writable+executable,
the trampoline copies and pointer slots are all written before the
protection change, and the single `mprotect` then leaves the page
read+execute (not writable), so it is never left writable and
executable after construction. -/
theorem c9_wx_discipline (page_size : Nat) :
    (dlopen_symbols_steps page_size).head?
        = some (.mmapPage PROT_RWX (align_up (3 * TRAMPOLINE_SIZE) page_size))
      ∧ final_prot (dlopen_symbols_steps page_size) = PROT_RX
      ∧ writes_after_transition (dlopen_symbols_steps page_size) = false := by
  refine ⟨rfl, rfl, rfl⟩

/-! ### Claim C7: library path resolution order -/

/-- Does `s` end with `suffix`?  (`str::ends_with`, via the character
lists so that the kernel can evaluate it.) -/
def str_ends_with (s suffix : String) : Bool :=
  List.isSuffixOf suffix.data s.data

/-- Does `s` contain the character `c`?  (`str::find(char)`.) -/
def str_contains (s : String) (c : Char) : Bool :=
  s.data.contains c

/-- Replace every non-overlapping occurrence of `pat` (non-empty) in
the remaining characters, left to right, with `rep`; the fuel is the
input length, which bounds the recursion. -/
def replace_go (pat rep : List Char) : Nat → List Char → List Char
  | 0, s => s
  | fuel + 1, s =>
    match s with
    | [] => []
    | c :: rest =>
      if pat.isPrefixOf (c :: rest) then
        rep ++ replace_go pat rep fuel ((c :: rest).drop pat.length)
      else c :: replace_go pat rep fuel rest

/-- `str::replace` (the loader only uses non-empty patterns). -/
def string_replace (s pat rep : String) : String :=
  match pat.data with
  | [] => s
  | p :: ps => String.mk (replace_go (p :: ps) rep.data s.data.length s.data)

/-- Split the characters of a string at every occurrence of `c`,
keeping empty pieces (`str::split`). -/
def split_go (c : Char) : List Char → List Char → List (List Char)
  | [], acc => [acc.reverse]
  | x :: rest, acc =>
    if x == c then acc.reverse :: split_go c rest []
    else split_go c rest (x :: acc)

def split_on_char (c : Char) (s : String) : List String :=
  (split_go c s.data []).map String.mk

/-- The filesystem oracle consumed by locate.rs: existence, directory
test, and `read_dir` (full paths of the entries; `none` models a failed
`read_dir`). -/
structure FileSystem where
  path_exists : String → Bool
  is_dir : String → Bool
  read_dir : String → Option (List String)

/-- `PathBuf::push` on string paths (a single separator is inserted). -/
def push_path (dir name : String) : String :=
  if str_ends_with dir "/" then dir ++ name else dir ++ "/" ++ name

/-- `check_directory` from locate.rs: require the directory to exist,
prefer the direct filename match, else scan the entries for an
immediate subdirectory containing the file. -/
def check_directory (fs : FileSystem) (name directory : String) : Option String :=
  if !fs.path_exists directory then none
  else
    let file_path := push_path directory name
    if fs.path_exists file_path then some file_path
    else if !fs.is_dir directory then none
    else
      match fs.read_dir directory with
      | none => none
      | some entries =>
        entries.findSome? fun p =>
          if !fs.is_dir p then none
          else
            let fp := push_path p name
            if fs.path_exists fp then some fp else none

/-- `replace_tokens` from locate.rs on the 64-bit Linux target:
`$ORIGIN` (both spellings) becomes the parent directory, `$LIB` becomes
`lib64`, `$PLATFORM` becomes the auxv platform string (modelled as an
always-available parameter; the code panics only when both auxv sources
fail). -/
def replace_tokens (s : String) (parent_path : Option String)
    (platform : String) : String :=
  let s := match parent_path with
    | some p => string_replace (string_replace s "$ORIGIN" p) "$\x7bORIGIN\x7d" p
    | none => s
  let s := string_replace (string_replace s "$LIB" "lib64") "$\x7bLIB\x7d" "lib64"
  string_replace (string_replace s "$PLATFORM" platform) "$\x7bPLATFORM\x7d" platform

/-- `split_paths` from locate.rs: split on `:` (character 58) when
present, else on `;` (character 59) when present, else the whole string
is one path. -/
def split_paths (input : String) : List String :=
  if str_contains input (Char.ofNat 58) then split_on_char (Char.ofNat 58) input
  else if str_contains input (Char.ofNat 59) then split_on_char (Char.ofNat 59) input
  else [input]

/-- First-some chaining (a Rust early-`return` ladder). -/
def opt_or {α : Type} (a b : Option α) : Option α :=
  match a with
  | some x => some x
  | none => b

@[simp] theorem opt_or_some {α : Type} (x : α) (b : Option α) :
    opt_or (some x) b = some x := rfl

@[simp] theorem opt_or_none {α : Type} (b : Option α) :
    opt_or (none : Option α) b = b := rfl

@[simp] theorem opt_or_none_right {α : Type} (a : Option α) :
    opt_or a none = a := by
  cases a <;> rfl

theorem opt_or_assoc {α : Type} (a b c : Option α) :
    opt_or (opt_or a b) c = opt_or a (opt_or b c) := by
  cases a <;> rfl

@[simp] theorem findSome_nil {α β : Type} (f : α → Option β) :
    ([] : List α).findSome? f = none := rfl

@[simp] theorem findSome_cons {α β : Type} (f : α → Option β) (a : α)
    (l : List α) :
    (a :: l).findSome? f = opt_or (f a) (l.findSome? f) := by
  cases h : f a <;> simp [List.findSome?, h, opt_or]

/-- `locate_library_internal` from locate.rs on the 64-bit target:
caller-supplied extra paths, then the requesting object's parent
directory, then each `LD_LIBRARY_PATH` entry after token substitution,
then `DT_RUNPATH`, then `/lib64/`, `/usr/lib64/`, `/lib/`, `/usr/lib/`.
The environment variable is an explicit parameter (`none` = unset). -/
def locate_library_internal (fs : FileSystem) (ld_library_path : Option String)
    (platform name : String) (extra_paths : Option (List String))
    (parent_path dt_runpath : Option String) : Option String :=
  opt_or
    (match extra_paths with
     | some paths => paths.findSome? (check_directory fs name)
     | none => none)
    (opt_or (parent_path.bind (check_directory fs name))
      (opt_or
        (match ld_library_path with
         | some lp =>
           (split_paths (replace_tokens lp parent_path platform)).findSome?
             (check_directory fs name)
         | none => none)
        (opt_or (dt_runpath.bind (check_directory fs name))
          (opt_or (check_directory fs name "/lib64/")
            (opt_or (check_directory fs name "/usr/lib64/")
              (opt_or (check_directory fs name "/lib/")
                (check_directory fs name "/usr/lib/")))))))

/-- The claim's candidate directory list, in its stated order. -/
def spec_candidate_dirs (ld_library_path : Option String) (platform : String)
    (extra_paths : Option (List String)) (parent_path dt_runpath : Option String) :
    List String :=
  (extra_paths.getD []) ++ parent_path.toList
    ++ (match ld_library_path with
        | some lp => split_paths (replace_tokens lp parent_path platform)
        | none => [])
    ++ dt_runpath.toList
    ++ ["/lib64/", "/usr/lib64/", "/lib/", "/usr/lib/"]

/-- Per-directory check as the claim words it: a direct filename match
is preferred; otherwise each immediate subdirectory is checked. -/
def spec_check_directory (fs : FileSystem) (name dir : String) : Option String :=
  let direct := push_path dir name
  if fs.path_exists direct then some direct
  else
    ((fs.read_dir dir).getD []).findSome? fun sub =>
      if fs.is_dir sub then
        (if fs.path_exists (push_path sub name) then some (push_path sub name)
         else none)
      else none

/-- The claim's resolver: the first existing file over the candidate
directories in order. -/
def spec_locate (fs : FileSystem) (ld_library_path : Option String)
    (platform name : String) (extra_paths : Option (List String))
    (parent_path dt_runpath : Option String) : Option String :=
  (spec_candidate_dirs ld_library_path platform extra_paths parent_path
    dt_runpath).findSome? (spec_check_directory fs name)

/-- Filesystem coherence at one directory: a file inside it implies the
directory exists and is a directory, a directory exists, and
`read_dir` fails on non-directories.  Real filesystems satisfy this;
the oracle must be constrained because it is otherwise arbitrary. -/
def dir_coherent (fs : FileSystem) (name dir : String) : Bool :=
  (!(fs.path_exists (push_path dir name)) || (fs.path_exists dir && fs.is_dir dir))
    && (fs.is_dir dir || (fs.read_dir dir).isNone)
    && (!(fs.is_dir dir) || fs.path_exists dir)

theorem opt_findSome_append {α β : Type} (f : α → Option β) :
    ∀ l₁ l₂ : List α, (l₁ ++ l₂).findSome? f
      = opt_or (l₁.findSome? f) (l₂.findSome? f) := by
  intro l₁
  induction l₁ with
  | nil => intro l₂; simp [List.findSome?]
  | cons hd tl ih =>
    intro l₂
    simp only [List.cons_append, List.findSome?]
    cases f hd <;> simp [ih]

theorem opt_findSome_congr {α β : Type} (l : List α) (f g : α → Option β)
    (h : ∀ d ∈ l, f d = g d) : l.findSome? f = l.findSome? g := by
  induction l with
  | nil => rfl
  | cons hd tl ih =>
    simp only [List.findSome?]
    rw [h hd (by simp)]
    cases g hd <;> simp [ih fun d hd => h d (by simp [hd])]

/-- At a coherent directory, the code's `check_directory` agrees with
the claim's per-directory check. -/
theorem check_directory_eq_spec (fs : FileSystem) (name dir : String)
    (h : dir_coherent fs name dir = true) :
    check_directory fs name dir = spec_check_directory fs name dir := by
  have h1 : fs.path_exists (push_path dir name) = true →
      fs.path_exists dir = true ∧ fs.is_dir dir = true := by
    intro hx
    by_cases he : fs.path_exists dir = true <;>
      by_cases hd : fs.is_dir dir = true <;> simp_all [dir_coherent]
  have h2 : fs.is_dir dir = false → fs.read_dir dir = none := by
    intro hx
    by_cases hr : (fs.read_dir dir).isNone = true
    · exact Option.isNone_iff_eq_none.mp hr
    · simp_all [dir_coherent]
  have h3 : fs.is_dir dir = true → fs.path_exists dir = true := by
    intro hx
    by_cases he : fs.path_exists dir = true
    · exact he
    · simp_all [dir_coherent]
  by_cases hex : fs.path_exists dir = true
  · by_cases hdirect : fs.path_exists (push_path dir name) = true
    · simp [check_directory, spec_check_directory, hex, hdirect]
    · by_cases hisdir : fs.is_dir dir = true
      · simp only [check_directory, spec_check_directory, hex, hdirect,
          hisdir, Bool.not_true, Bool.not_false, Bool.false_eq_true,
          if_false, if_true]
        cases hrd : fs.read_dir dir with
        | none => simp
        | some entries =>
          simp only [Option.getD]
          apply opt_findSome_congr
          intro p _
          by_cases hp : fs.is_dir p = true <;> simp [hp]
      · have hrd := h2 (by simpa using hisdir)
        simp [check_directory, spec_check_directory, hex, hdirect, hisdir, hrd]
  · have hdirect : fs.path_exists (push_path dir name) = false := by
      cases hv : fs.path_exists (push_path dir name)
      · rfl
      · exact absurd (h1 hv).1 (by simpa using hex)
    have hisdir : fs.is_dir dir = false := by
      cases hv : fs.is_dir dir
      · rfl
      · exact absurd (h3 hv) (by simpa using hex)
    have hrd := h2 hisdir
    simp [check_directory, spec_check_directory, hex, hdirect, hisdir, hrd]

/-- The code's early-return ladder is the first-match search over the
candidate list (pure list algebra, no filesystem assumptions). -/
theorem locate_as_findSome (fs : FileSystem) (ld_library_path : Option String)
    (platform name : String) (extra_paths : Option (List String))
    (parent_path dt_runpath : Option String) :
    locate_library_internal fs ld_library_path platform name extra_paths
        parent_path dt_runpath
      = (spec_candidate_dirs ld_library_path platform extra_paths parent_path
          dt_runpath).findSome? (check_directory fs name) := by
  unfold locate_library_internal spec_candidate_dirs
  cases extra_paths <;> cases parent_path <;> cases ld_library_path <;>
    cases dt_runpath <;>
    simp only [opt_findSome_append, findSome_cons, findSome_nil,
      opt_or_none, opt_or_none_right, opt_or_assoc, Option.getD,
      Option.toList, Option.bind]

/-- C7: the path resolver returns the first existing file over
caller-supplied extra paths, the requesting object's parent directory,
the substituted `LD_LIBRARY_PATH` entries, `DT_RUNPATH`, `/lib64/` and
`/usr/lib64/`, then `/lib/` and `/usr/lib/`, preferring a direct
filename match inside each directory over an immediate-subdirectory
match, and returning absent when nothing matches — provided the
filesystem oracle is coherent on the candidate directories. -/
theorem c7_locate_order (fs : FileSystem) (ld_library_path : Option String)
    (platform name : String) (extra_paths : Option (List String))
    (parent_path dt_runpath : Option String)
    (h : (spec_candidate_dirs ld_library_path platform extra_paths parent_path
        dt_runpath).all (fun d => dir_coherent fs name d) = true) :
    locate_library_internal fs ld_library_path platform name extra_paths
        parent_path dt_runpath
      = spec_locate fs ld_library_path platform name extra_paths parent_path
          dt_runpath := by
  rw [locate_as_findSome, spec_locate]
  apply opt_findSome_congr
  intro d hd
  exact check_directory_eq_spec fs name d (by
    have := List.all_eq_true.mp h
    simpa using this d hd)

/-- A small coherent filesystem for the C7 witness: `/usr/lib64/`
exists and contains no direct `libm.so`, but its subdirectory
`/usr/lib64/openblas` holds one. -/
def c7fs : FileSystem :=
  { path_exists := fun p =>
      p == "/usr/lib64/" || p == "/usr/lib64/openblas"
        || p == "/usr/lib64/openblas/libm.so" || p == "/usr/lib64/README"
    is_dir := fun p => p == "/usr/lib64/" || p == "/usr/lib64/openblas"
    read_dir := fun p =>
      if p == "/usr/lib64/" then some ["/usr/lib64/openblas", "/usr/lib64/README"]
      else none }

/-- Witness for C7 at a concrete filesystem, exercising the
subdirectory preference inside `/usr/lib64/`. -/
theorem c7_locate_order_witness :
    (spec_candidate_dirs none "x86_64" none none none).all
        (fun d => dir_coherent c7fs "libm.so" d) = true
      ∧ locate_library_internal c7fs none "x86_64" "libm.so" none none none
        = spec_locate c7fs none "x86_64" "libm.so" none none none
      ∧ locate_library_internal c7fs none "x86_64" "libm.so" none none none
        = some "/usr/lib64/openblas/libm.so" := by
  refine ⟨by decide, ?_, by decide⟩
  exact c7_locate_order c7fs none "x86_64" "libm.so" none none none (by decide)


/-! ### Claim C6: global symbol search order -/

/-- The spec's description of the global search as a pure depth-first
traversal: skip an instance already on the lookup stack, and for each
dependency in the map's iteration order search its local tables before
descending into its own dependencies. -/
def spec_global_search :
    Nat → (Nat → Loader) → List Nat → Nat → String → Bool →
      Option LinkingSymbol
  | 0, _, _, _, _, _ => none
  | fuel + 1, w, stack, id, symbol_name, include_overrides =>
    if id ∈ stack then none
    else
      ((w id).dependencies).findSome? fun dep =>
        match dep.2 with
        | none => none
        | some d =>
          (find_local_symbol_by_name (w d) symbol_name include_overrides).or
            (spec_global_search fuel w (id :: stack) d symbol_name
              include_overrides)

theorem set_looking_flag_same (i : Nat) (b : Bool) (w : Nat → Loader) :
    ((set_looking i b w) i).looking_for_symbol = b := by
  simp [set_looking, update_loader]

theorem set_looking_flag_other (i : Nat) (b : Bool) (w : Nat → Loader)
    (j : Nat) (h : j ≠ i) : (set_looking i b w) j = w j := by
  simp [set_looking, update_loader, h]

theorem loader_set_flag_id (ld : Loader) (b : Bool)
    (h : ld.looking_for_symbol = b) :
    ({ ld with looking_for_symbol := b }) = ld := by
  cases ld
  simp_all

theorem set_looking_cancel (i : Nat) (w : Nat → Loader)
    (h : (w i).looking_for_symbol = false) :
    set_looking i false (set_looking i true w) = w := by
  funext j
  by_cases hj : j = i
  · subst hj
    have h2 : ∀ ld : Loader, ld.looking_for_symbol = false →
        ({ ({ ld with looking_for_symbol := true } : Loader) with
          looking_for_symbol := false } : Loader) = ld := by
      intro ld hld
      cases ld
      simp_all
    simp only [set_looking, update_loader, if_true]
    exact h2 (w j) h
  · rw [set_looking_flag_other _ _ _ _ hj, set_looking_flag_other _ _ _ _ hj]

theorem find_local_flag_update (ld : Loader) (b : Bool) (nm : String)
    (io : Bool) :
    find_local_symbol_by_name { ld with looking_for_symbol := b } nm io
      = find_local_symbol_by_name ld nm io := rfl

theorem set_looking_find_local (i : Nat) (b : Bool) (w : Nat → Loader)
    (d : Nat) (nm : String) (io : Bool) :
    find_local_symbol_by_name ((set_looking i b w) d) nm io
      = find_local_symbol_by_name (w d) nm io := by
  by_cases h : d = i
  · subst h
    simp only [set_looking, update_loader, if_true]
    exact find_local_flag_update (w d) b nm io
  · rw [set_looking_flag_other _ _ _ _ h]

theorem set_looking_dependencies (i : Nat) (b : Bool) (w : Nat → Loader)
    (id : Nat) :
    ((set_looking i b w) id).dependencies = (w id).dependencies := by
  by_cases h : id = i
  · subst h; simp [set_looking, update_loader]
  · rw [set_looking_flag_other _ _ _ _ h]

/-- The pure DFS never reads the recursion-guard flags. -/
theorem spec_global_flag_inv :
    ∀ (fuel i : Nat) (b : Bool) (w : Nat → Loader) (stack : List Nat)
      (id : Nat) (nm : String) (io : Bool),
      spec_global_search fuel (set_looking i b w) stack id nm io
        = spec_global_search fuel w stack id nm io := by
  intro fuel
  induction fuel with
  | zero => intros; rfl
  | succ n ih =>
    intro i b w stack id nm io
    simp only [spec_global_search]
    by_cases hmem : id ∈ stack
    · simp [hmem]
    · rw [if_neg hmem, if_neg hmem, set_looking_dependencies]
      apply opt_findSome_congr
      intro dep _
      rcases dep with ⟨nm2, dep2⟩
      cases dep2 with
      | none => rfl
      | some d =>
        dsimp only
        rw [set_looking_find_local, ih]

/-- The dependency loop agrees with the first-match search over the
dependency list, provided each recursive call satisfies the
correspondence and returns its world unchanged. -/
theorem search_deps_eq_spec (fuel : Nat) (w1 : Nat → Loader)
    (stack1 : List Nat) (nm : String) (io : Bool)
    (hrec : ∀ d, find_global_symbol fuel w1 d nm io
      = (spec_global_search fuel w1 stack1 d nm io, w1)) :
    ∀ deps : List (String × Option Nat),
      search_dependencies (fun w' d => find_global_symbol fuel w' d nm io)
          nm io w1 deps
        = (deps.findSome? (fun dep =>
            match dep.2 with
            | none => none
            | some d =>
              (find_local_symbol_by_name (w1 d) nm io).or
                (spec_global_search fuel w1 stack1 d nm io)), w1) := by
  intro deps
  induction deps with
  | nil => simp [search_dependencies]
  | cons hd tl ih =>
    rcases hd with ⟨nm2, dep2⟩
    cases dep2 with
    | none => simpa [search_dependencies] using ih
    | some d =>
      simp only [search_dependencies, hrec d, findSome_cons]
      cases hor : (find_local_symbol_by_name (w1 d) nm io).or
          (spec_global_search fuel w1 stack1 d nm io) with
      | none => simpa [hor] using ih
      | some s => simp [hor]

/-- Correspondence between the guarded, flag-mutating
`find_global_symbol` and the pure stack-based DFS: whenever the set of
raised `looking_for_symbol` flags is exactly the lookup stack, the code
computes the DFS result and restores every flag. -/
theorem find_global_symbol_eq_spec :
    ∀ (fuel : Nat) (w : Nat → Loader) (stack : List Nat) (id : Nat)
      (nm : String) (io : Bool),
      (∀ j, (w j).looking_for_symbol = true ↔ j ∈ stack) →
      find_global_symbol fuel w id nm io
        = (spec_global_search fuel w stack id nm io, w) := by
  intro fuel
  induction fuel with
  | zero => intros; rfl
  | succ n ih =>
    intro w stack id nm io hinv
    simp only [find_global_symbol, spec_global_search]
    by_cases hflag : (w id).looking_for_symbol = true
    · have hmem : id ∈ stack := (hinv id).mp hflag
      simp [hflag, hmem]
    · have hmem : id ∉ stack := fun hm => hflag ((hinv id).mpr hm)
      rw [if_neg hflag, if_neg hmem]
      have hinv1 : ∀ j, ((set_looking id true w) j).looking_for_symbol = true
          ↔ j ∈ id :: stack := by
        intro j
        by_cases hj : j = id
        · subst hj
          simp [set_looking_flag_same]
        · rw [set_looking_flag_other _ _ _ _ hj]
          simp [hinv j, hj]
      have hsd := search_deps_eq_spec n (set_looking id true w) (id :: stack)
        nm io (fun d => ih (set_looking id true w) (id :: stack) d nm io hinv1)
        ((set_looking id true w) id).dependencies
      rw [hsd]
      dsimp only
      rw [set_looking_dependencies]
      have hflag' : (w id).looking_for_symbol = false := by
        simp at hflag; exact hflag
      refine Prod.ext ?_ (set_looking_cancel id w hflag')
      dsimp only
      apply opt_findSome_congr
      intro dep _
      rcases dep with ⟨nm2, dep2⟩
      cases dep2 with
      | none => rfl
      | some d =>
        dsimp only
        rw [set_looking_find_local, spec_global_flag_inv]

/-- A pair of loaders exporting the same symbol name `f` at distinct
addresses. -/
def c6SymLoader (v : Nat) : Loader :=
  { emptyLoader with
    dynsym := some ([], [])
    gnu_hash := some (some [("f", { zeroSym with st_value := v })]) }

/-- World whose root's dependency map iterates as `liba` then `libb`. -/
def c6WorldAB : Nat → Loader := fun id =>
  if id = 1 then c6SymLoader 0x100
  else if id = 2 then c6SymLoader 0x200
  else { emptyLoader with dependencies := [("liba", some 1), ("libb", some 2)] }

/-- The same dependency map, iterating as `libb` then `liba`. -/
def c6WorldBA : Nat → Loader := fun id =>
  if id = 1 then c6SymLoader 0x100
  else if id = 2 then c6SymLoader 0x200
  else { emptyLoader with dependencies := [("libb", some 2), ("liba", some 1)] }

/-- C6 counterexample: the dependency map is a `HashMap`, whose
iteration order is unspecified and not the insertion order.  Two worlds
holding the **same** dependency map (the lists are permutations of one
another) yield different resolutions of `f`, so the search result is
determined by the hash map's arbitrary iteration order, not by the
order in which the dependencies were inserted as the claim states. -/
theorem c6_iteration_order :
    (find_global_symbol 3 c6WorldAB 0 "f" true).1
        ≠ (find_global_symbol 3 c6WorldBA 0 "f" true).1
      ∧ (c6WorldAB 0).dependencies.Perm ((c6WorldBA 0).dependencies) := by
  refine ⟨by decide, by decide⟩

/-- C6 amended: the global search is depth-first over the dependency
map's iteration order — each dependency's local tables are searched
before descending into its own dependencies — and an instance whose
guard flag is raised (i.e. already on the lookup stack) is never
re-entered; the guard flags are restored on exit. -/
theorem c6_global_search_dfs (fuel : Nat) (w : Nat → Loader)
    (stack : List Nat) (id : Nat) (nm : String) (io : Bool)
    (hinv : ∀ j, (w j).looking_for_symbol = true ↔ j ∈ stack) :
    find_global_symbol fuel w id nm io
        = (spec_global_search fuel w stack id nm io, w)
      ∧ (id ∈ stack → (find_global_symbol fuel w id nm io).1 = none) := by
  have h := find_global_symbol_eq_spec fuel w stack id nm io hinv
  refine ⟨h, fun hm => ?_⟩
  rw [h]
  cases fuel with
  | zero => rfl
  | succ n => simp [spec_global_search, hm]

/-- A world (constant, so that the invariant is checkable for every
index) with one dependency that defines `pow_int`. -/
def c6WitnessWorld : Nat → Loader := fun _ =>
  { emptyLoader with
    dependencies := [("libm.so", some 1)]
    dynsym := some ([], [])
    gnu_hash := some (some [("pow_int", { zeroSym with st_value := 0x40 })]) }

/-- Witness for the amended C6 at a concrete world and empty stack. -/
theorem c6_global_search_dfs_witness :
    find_global_symbol 2 c6WitnessWorld 0 "pow_int" true
      = (spec_global_search 2 c6WitnessWorld [] 0 "pow_int" true,
        c6WitnessWorld) := by
  exact (c6_global_search_dfs 2 c6WitnessWorld [] 0 "pow_int" true
    (by intro j; simp [c6WitnessWorld, emptyLoader])).1

/-! ### Claim C10: `get_symbol` never consults the override map -/

/-- Replace every loader's override map. -/
def set_overrides (ov : Nat → List (String × Option Nat)) (w : Nat → Loader) :
    Nat → Loader :=
  fun j => { w j with symbol_overrides := ov j }

theorem set_overrides_apply (ov : Nat → List (String × Option Nat))
    (w : Nat → Loader) (j : Nat) :
    (set_overrides ov w) j = { w j with symbol_overrides := ov j } := rfl

/-- With `include_overrides = false`, the by-name lookup never reads the
override map. -/
theorem find_local_no_override (ld : Loader)
    (ovs : List (String × Option Nat)) (nm : String) :
    find_local_symbol_by_name { ld with symbol_overrides := ovs } nm false
      = find_local_symbol_by_name ld nm false := rfl

theorem set_overrides_looking (ov : Nat → List (String × Option Nat))
    (w : Nat → Loader) (j : Nat) :
    ((set_overrides ov w) j).looking_for_symbol = (w j).looking_for_symbol := rfl

theorem set_overrides_set_looking (ov : Nat → List (String × Option Nat))
    (i : Nat) (b : Bool) (w : Nat → Loader) :
    set_looking i b (set_overrides ov w)
      = set_overrides ov (set_looking i b w) := by
  funext j
  by_cases hj : j = i
  · subst hj
    simp [set_looking, update_loader, set_overrides]
  · simp [set_looking, update_loader, set_overrides, hj]

theorem set_overrides_dependencies (ov : Nat → List (String × Option Nat))
    (w : Nat → Loader) (j : Nat) :
    ((set_overrides ov w) j).dependencies = (w j).dependencies := rfl

/-- The dependency loop with overrides disabled is insensitive to the
override maps, provided the recursive call is. -/
theorem search_deps_no_override (fuel : Nat)
    (ov : Nat → List (String × Option Nat)) (nm : String)
    (hrec : ∀ (w : Nat → Loader) (d : Nat),
      find_global_symbol fuel (set_overrides ov w) d nm false
        = ((find_global_symbol fuel w d nm false).1,
          set_overrides ov (find_global_symbol fuel w d nm false).2)) :
    ∀ (deps : List (String × Option Nat)) (w : Nat → Loader),
      search_dependencies (fun w' d => find_global_symbol fuel w' d nm false)
          nm false (set_overrides ov w) deps
        = ((search_dependencies (fun w' d => find_global_symbol fuel w' d nm false)
            nm false w deps).1,
          set_overrides ov
            (search_dependencies (fun w' d => find_global_symbol fuel w' d nm false)
              nm false w deps).2) := by
  intro deps
  induction deps with
  | nil => intro w; rfl
  | cons hd tl ih =>
    intro w
    rcases hd with ⟨nm2, dep2⟩
    cases dep2 with
    | none =>
      simpa [search_dependencies] using ih w
    | some d =>
      simp only [search_dependencies]
      have hl : find_local_symbol_by_name ((set_overrides ov w) d) nm false
          = find_local_symbol_by_name (w d) nm false := by
        rw [set_overrides_apply, find_local_no_override]
      rw [hl, hrec w d]
      dsimp only
      cases hor : (find_local_symbol_by_name (w d) nm false).or
          ((find_global_symbol fuel w d nm false).1) with
      | some s => simp [hor]
      | none => simpa [hor] using ih (find_global_symbol fuel w d nm false).2

/-- The global search with overrides disabled is insensitive to the
override maps. -/
theorem find_global_no_override :
    ∀ (fuel : Nat) (ov : Nat → List (String × Option Nat))
      (w : Nat → Loader) (id : Nat) (nm : String),
      find_global_symbol fuel (set_overrides ov w) id nm false
        = ((find_global_symbol fuel w id nm false).1,
          set_overrides ov (find_global_symbol fuel w id nm false).2) := by
  intro fuel
  induction fuel with
  | zero => intros; rfl
  | succ n ih =>
    intro ov w id nm
    simp only [find_global_symbol, set_overrides_looking]
    by_cases hflag : (w id).looking_for_symbol = true
    · simp [hflag]
    · simp only [hflag, if_false, Bool.false_eq_true]
      rw [set_overrides_set_looking, set_overrides_dependencies,
        search_deps_no_override n ov nm (fun w d => ih ov w d nm) _
          (set_looking id true w)]
      dsimp only
      rw [set_overrides_set_looking]

/-- C10: `get_symbol` never consults the override map — replacing every
loader's overrides leaves its result unchanged — and on success the
returned address is `image_base + st_value - base_virtual_address`
computed from the symbol found by the hash-table/dependency search
alone, with the symbol's size alongside. -/
theorem c10_get_symbol_ignores_overrides (gfuel : Nat) (w : Nat → Loader)
    (id : Nat) (nm : String) (ov : Nat → List (String × Option Nat)) :
    get_symbol gfuel (set_overrides ov w) id nm = get_symbol gfuel w id nm
      ∧ ∀ a sz, get_symbol gfuel w id nm = some (a, sz) →
          ∃ s : LinkingSymbol,
            (match find_local_symbol_by_name (w id) nm false with
             | some s0 => some s0
             | none => (find_global_symbol gfuel w id nm false).1) = some s
            ∧ a = get_offset (w id).base (w id).base_virtual_address s.value
            ∧ sz = s.size := by
  constructor
  · simp only [get_symbol]
    have hl : find_local_symbol_by_name ((set_overrides ov w) id) nm false
        = find_local_symbol_by_name (w id) nm false := by
      rw [set_overrides_apply, find_local_no_override]
    rw [hl, find_global_no_override]
    cases hfind : find_local_symbol_by_name (w id) nm false <;> rfl
  · intro a sz h
    simp only [get_symbol] at h
    cases hfind : (match find_local_symbol_by_name (w id) nm false with
        | some s0 => some s0
        | none => (find_global_symbol gfuel w id nm false).1) with
    | none => rw [hfind] at h; cases h
    | some s =>
      rw [hfind] at h
      simp only [Option.map, Option.some.injEq, Prod.mk.injEq] at h
      exact ⟨s, rfl, h.1.symm, h.2.symm⟩

/-- Loader for the C10 witness: a local `g` in the hash table **and** a
registered override for the same name, which `get_symbol` must
ignore. -/
def c10Loader : Loader :=
  { emptyLoader with
    base := 0x5000
    base_virtual_address := 0x1000
    dynsym := some ([], [])
    gnu_hash := some (some [("g", { zeroSym with st_value := 0x1200, st_size := 32 })])
    symbol_overrides := [("g", some 0xDEAD)] }

/-- The world for the C10 witness. -/
def c10World : Nat → Loader := fun _ => c10Loader

/-- Witness for C10 at a concrete world: erasing the overrides does not
change `get_symbol`, and the returned address obeys the formula. -/
theorem c10_get_symbol_ignores_overrides_witness :
    get_symbol 1 (set_overrides (fun _ => []) c10World) 0 "g"
        = get_symbol 1 c10World 0 "g"
      ∧ ∃ s : LinkingSymbol,
          (match find_local_symbol_by_name (c10World 0) "g" false with
           | some s0 => some s0
           | none => (find_global_symbol 1 c10World 0 "g" false).1) = some s
          ∧ 0x5200 = get_offset (c10World 0).base
              (c10World 0).base_virtual_address s.value
          ∧ 32 = s.size := by
  refine ⟨(c10_get_symbol_ignores_overrides 1 c10World 0 "g" (fun _ => [])).1, ?_⟩
  exact (c10_get_symbol_ignores_overrides 1 c10World 0 "g" (fun _ => [])).2
    0x5200 32 (by rfl)

end JniLoader
